import Mathlib

/-!
# pg_gnuplot: a shallow embedding of `pg_gnuplot.c`

The extension keeps one process-wide handle `g_fp` to a gnuplot subprocess.
`gnuplot_version` locates the binary, probes its version and opens the handle;
`pg_plot` writes a plot command and the rows of a query to it.

Conventions of the embedding

* A C `char` is held as its byte value (`0 .. 255`); `promote` is the integer
  promotion of a signed `char` (the x86-64 Linux ABI), which is what the
  comparisons `ch == EOF`, `ch == 0`, `ch == ' '` are made on.
* A C string is the list of its bytes before the terminating NUL.
* The global `g_fp` is passed in and returned explicitly; `none` is `NULL`.
* `ereport(ERROR, ...)` leaves the function at once; it is an outcome of its own.
  The `ereport(LOG, ...)` lines write to the server log only and are left out.
* What gnuplot's pipe receives is the list of the `fprintf` calls made on it,
  each tagged with the statement that made it; every one of them is followed by
  `fflush`, so the bytes of the list are the bytes the pipe has received.
* The operating system (`popen`, `select`, `fgetc`, `errno`) and the SPI
  (`SPI_connect`, `SPI_execute`, `SPI_getvalue`) are inputs: the embedding is a
  function of what they answer. A query that raises an error inside
  `SPI_execute` never comes back to `pg_plot` and has no answer here.
* `row_count` is an `int` that receives the unsigned counter `SPI_processed`:
  `to_int` keeps the low 32 bits as a two's-complement value, so a result of
  `2 ^ 31` rows has a negative `row_count`. The other counters stay far below
  `2 ^ 31` (a text datum holds less than `2 ^ 30` bytes, a descriptor at most
  1664 attributes) and are natural numbers.
-/

namespace PgGnuplot

/-! ## C strings -/

/-- The bytes of an ASCII literal. -/
def cstr (s : String) : List Nat := s.toList.map Char.toNat

/-- The C string held by a buffer: its bytes up to the first NUL. -/
def c_str (buf : List Nat) : List Nat := buf.takeWhile (fun b => b ≠ 0)

/-- The function text_to_cstring copies the bytes of a text datum and terminates them
with NUL; what the C string functions then see ends at the first NUL. -/
def text_to_cstring (t : List Nat) : List Nat := c_str t

/-- The length strlen of a C string. -/
def strlen (s : List Nat) : Nat := s.length

/-- The placeholder token, the three characters quote, hyphen, quote. -/
def placeholder : List Nat := [39, 45, 39]

/-- The call strstr(p, needle): the rest of `p` from the first occurrence of `needle` on,
`none` for `NULL`. -/
def strstr : List Nat → List Nat → Option (List Nat)
  | [], needle => if needle = [] then some [] else none
  | c :: p, needle =>
    if needle.isPrefixOf (c :: p) then some (c :: p) else strstr p needle

/-- The loop of `count_cmds`:
`for (p = plot_cmds; (p = strstr(p, tok)) != NULL; ++p) count++;`
The first argument bounds the number of iterations; `count_cmds` passes one more
than the length of the string, which the loop never uses up. -/
def count_cmds_loop : Nat → List Nat → Nat → Nat
  | 0, _, count => count
  | fuel + 1, p, count =>
    match strstr p placeholder with
    | none => count
    | some q => count_cmds_loop fuel (q.drop 1) (count + 1)

/-- The function `count_cmds`; `none` is the `NULL` pointer. -/
def count_cmds : Option (List Nat) → Nat
  | none => 0
  | some plot_cmds => count_cmds_loop (strlen plot_cmds + 1) plot_cmds 0

/-! ## Errors and outcomes -/

/-- The `ereport(ERROR, ...)` statements of the file, in source order. -/
inductive PgError
  | whereisPopen
  | whereisErrno
  | probePopen
  | probeTimeout
  | probeErrno
  | launchPopen
  | noSession
  | emptyCommand
  | invalidCommand
  | spiConnect
  | invalidResults
  deriving DecidableEq, Repr

/-- The `errmsg` format of each error. -/
def errmsg : PgError → String
  | .whereisPopen => "PG_GNUPLOT : popen could not execute command"
  | .whereisErrno => "PG_GNUPLOT : popen could not execute command [whereis -b gnuplot]"
  | .probePopen => "PG_GNUPLOT : popen could not execute command [%s]"
  | .probeTimeout => "PG_GNUPLOT : error while executing command [%s]"
  | .probeErrno => "PG_GNUPLOT : popen could not execute command [%s]"
  | .launchPopen => "PG_GNUPLOT : popen could not execute command [%s]"
  | .noSession => "PG_GNUPLOT : gnuplot_version must be called before issuing pg_plot"
  | .emptyCommand => "PG_GNUPLOT : the plot command cannot be empty"
  | .invalidCommand => "PG_GNUPLOT : the plot command is invalid"
  | .spiConnect => "PG_GNUPLOT : cannot connect to the database server"
  | .invalidResults => "PG_GNUPLOT : invalid query results"

/-- The fixed `errdetail` text of an error, where it has one. -/
def errdetail : PgError → Option String
  | .whereisPopen => some "whereis -b gnuplot"
  | .probeTimeout => some "timed out waiting for version string"
  | _ => none

/-- How a call ends: with a return value, with `ereport(ERROR, ...)`, or with a
store outside `tmpbuf` at the given index (undefined behaviour). -/
inductive Ret (α : Type)
  | returned (v : α)
  | ereport (e : PgError)
  | outOfBounds (index : Int)
  deriving DecidableEq, Repr

/-! ## The session pipe -/

/-- A session handle, the `FILE *` that popen returned. -/
abbrev FILE := Nat

/-- The `fprintf(g_fp, ...)` statements of `pg_plot`. -/
inductive Site
  /-- Line 308, the plot command. -/
  | plotCmd
  /-- Line 329, the end-of-block sent when the SPI connection failed. -/
  | connectUnblock
  /-- Line 353, the end-of-block sent when the query gave no result. -/
  | queryUnblock
  /-- Line 374, a column that is not the last of its row. -/
  | column
  /-- Line 376, the last column of a row and the newline. -/
  | rowEnd
  /-- Line 386, the end-of-block after the rows. -/
  | blockEnd
  deriving DecidableEq, Repr

/-- One `fprintf` on the session pipe: the statement and the bytes it wrote. -/
structure Write where
  site : Site
  text : List Nat
  deriving DecidableEq, Repr

/-- The bytes the pipe received from a sequence of writes. -/
def bytes : List Write → List Nat
  | [] => []
  | w :: ws => w.text ++ bytes ws

/-- How many of the writes were made by the given statement. -/
def countSite (s : Site) : List Write → Nat
  | [] => 0
  | w :: ws => (if w.site = s then 1 else 0) + countSite s ws

/-- The line `e`, the end of a data block. -/
def endOfBlock : List Nat := cstr "e\n"

/-! ## The SPI -/

/-- A heap tuple: the text of each attribute, `none` for an SQL NULL. -/
abbrev HeapTuple := List (Option (List Nat))

/-- The tuple table `SPI_tuptable`: the attribute count `tupdesc->natts` of its
descriptor and its tuples `vals`. -/
structure TupTable where
  natts : Nat
  vals : List HeapTuple
  deriving DecidableEq, Repr

/-- What `SPI_execute` leaves behind: its return code and `SPI_tuptable`. -/
structure ExecResult where
  ret : Int
  tuptable : Option TupTable
  deriving DecidableEq, Repr

/-- The SPI as `pg_plot` sees it. -/
structure SPI where
  connect : Int
  execute : List Nat → ExecResult

/-- The code `SPI_OK_CONNECT` of `executor/spi.h`. -/
def SPI_OK_CONNECT : Int := 1

/-- The code `SPI_OK_SELECT` of `executor/spi.h`. -/
def SPI_OK_SELECT : Int := 5

/-- The counter `SPI_processed` after a query, an unsigned 64-bit number: the
number of tuples in `SPI_tuptable->vals`, as the SPI sets it. -/
def SPI_processed (r : ExecResult) : Nat :=
  match r.tuptable with
  | some tt => tt.vals.length
  | none => 0

/-- The call SPI_getvalue(tuple, tupdesc, fnumber): `NULL` for an attribute number
outside `1 .. natts` and for an SQL NULL. -/
def SPI_getvalue (tuple : HeapTuple) (natts : Nat) (fnumber : Nat) : Option (List Nat) :=
  if fnumber = 0 ∨ natts < fnumber then none else tuple.getD (fnumber - 1) none

/-- The conversion of an unsigned counter to `int`, as in
`row_count = SPI_processed`: the low 32 bits, read in two's complement. -/
def to_int (n : Nat) : Int :=
  if n % 4294967296 < 2147483648 then ((n % 4294967296 : Nat) : Int)
  else ((n % 4294967296 : Nat) : Int) - 4294967296

/-- What `%s` prints: the string, and `(null)` for a `NULL` pointer (glibc). -/
def fmt_s : Option (List Nat) → List Nat
  | some s => s
  | none => cstr "(null)"

/-! ## pg_plot -/

/-- The loop `for (i = start; i < start + n; i++) body(i)`, collecting what the
body writes. -/
def for_loop (body : Nat → List Write) : Nat → Nat → List Write
  | 0, _ => []
  | n + 1, start => body start ++ for_loop body n (start + 1)

/-- The body of the row loop (lines 371-377): the columns but the last, each
followed by two spaces, then the last column and a newline. -/
def send_row (tt : TupTable) (j : Nat) : List Write :=
  let tuple := tt.vals.getD j []
  for_loop (fun k => [⟨Site.column, fmt_s (SPI_getvalue tuple tt.natts (k + 1)) ++ cstr "  "⟩])
      (tt.natts - 1) 0
    ++ [⟨Site.rowEnd, fmt_s (SPI_getvalue tuple tt.natts ((tt.natts - 1) + 1)) ++ cstr "\n"⟩]

/-- The body of the block loop (lines 369-387): the rows `0 <= j < row_count`,
none when `row_count` is not positive, then the line `e`. -/
def send_block (tt : TupTable) (row_count : Int) : List Write :=
  for_loop (send_row tt) row_count.toNat 0 ++ [⟨Site.blockEnd, endOfBlock⟩]

/-- What a call of `pg_plot` did. -/
structure PlotOutcome where
  result : Ret Int
  g_fp : Option FILE
  writes : List Write
  pclosed : Option FILE
  deriving DecidableEq, Repr

/-- The function `pg_plot`. The arguments are the text datums, `none` for a `NULL`
pointer. The test `ret != SPI_OK_SELECT || SPI_tuptable == NULL` is made on the
tuple table first, which gives the same two outcomes. -/
def pg_plot (g_fp : Option FILE) (db_qry p_cmd : Option (List Nat)) (spi : SPI) :
    PlotOutcome :=
  match g_fp with
  | none => ⟨.ereport .noSession, none, [], none⟩
  | some fp =>
    match p_cmd with
    | none => ⟨.ereport .emptyCommand, some fp, [], none⟩
    | some p =>
      let plot_cmd := text_to_cstring p
      let plot_cmd_len := strlen plot_cmd
      if plot_cmd_len < 4 then ⟨.ereport .invalidCommand, some fp, [], none⟩
      else
        let db_query := (db_qry.map text_to_cstring).getD []
        let db_qry_len := strlen db_query
        let sent : List Write := [⟨Site.plotCmd, plot_cmd ++ cstr "\n"⟩]
        if db_qry = none ∨ db_qry_len < 1 then
          if plot_cmd = cstr "quit" then ⟨.returned 1, none, sent, some fp⟩
          else ⟨.returned 1, some fp, sent, none⟩
        else if spi.connect ≠ SPI_OK_CONNECT then
          ⟨.ereport .spiConnect, some fp, sent ++ [⟨Site.connectUnblock, endOfBlock⟩], none⟩
        else
          let r := spi.execute db_query
          let row_count : Int := to_int (SPI_processed r)
          match r.tuptable with
          | none =>
            ⟨.ereport .invalidResults, some fp, sent ++ [⟨Site.queryUnblock, endOfBlock⟩], none⟩
          | some tt =>
            if r.ret ≠ SPI_OK_SELECT then
              ⟨.ereport .invalidResults, some fp,
                sent ++ [⟨Site.queryUnblock, endOfBlock⟩], none⟩
            else
              let cmds := count_cmds (some plot_cmd)
              ⟨.returned 1, some fp,
                sent ++ for_loop (fun _ => send_block tt row_count) cmds 0, none⟩

/-! ## Reading a pipe -/

/-- The constant `GEN_LEN`. -/
def GEN_LEN : Nat := 1024

/-- The constant `EOF`. -/
def EOF : Int := -1

/-- The conversion of an `int` to `char`, as in `ch = fgetc(fp)`. -/
def to_char (v : Int) : Nat := (v % 256).toNat

/-- The integer promotion of a `char`, which is signed. -/
def promote (ch : Nat) : Int :=
  if ch % 256 < 128 then ((ch % 256 : Nat) : Int) else ((ch % 256 : Nat) : Int) - 256

/-- What one call of `read_stdin` meets on a pipe that is still open: `select`
answers 0 after two seconds, `select` answers -1, or `fgetc` reads a byte. -/
inductive PipeEvent
  | timeout
  | selectError
  | byte (b : Nat)
  deriving DecidableEq, Repr

/-- A readable pipe: what the successive calls of `read_stdin` meet; once the
list is used up the stream is at its end and `fgetc` answers `EOF`. -/
abbrev Pipe := List PipeEvent

/-- The function `read_stdin` on the next event of the pipe, `none` at the end of
the stream. -/
def read_stdin : Option PipeEvent → Nat
  | some .timeout => 0
  | some .selectError => 0
  | some (.byte b) => to_char b
  | none => to_char EOF

/-- The variables of the first loop of `gnuplot_version`. -/
structure Discovery where
  cmdbuf : List Nat
  firstSpacePos : Int
  i : Nat
  deriving DecidableEq, Repr

/-- One pass through the body of the first loop (lines 124-148) for the
character read; the flag tells whether the loop goes on. -/
def discover_step (ch : Nat) (s : Discovery) : Discovery × Bool :=
  if promote ch = EOF ∨ promote ch = 0 then (s, false)
  else if 0 ≤ s.firstSpacePos ∧ promote ch = 32 then
    ({ s with cmdbuf := s.cmdbuf ++ cstr " -V" ++ [0] }, false)
  else
    let firstSpacePos : Int :=
      if s.firstSpacePos < 0 ∧ promote ch = 32 then (s.i : Int) else s.firstSpacePos
    let cmdbuf := if 0 ≤ firstSpacePos then s.cmdbuf ++ [ch] else s.cmdbuf
    (⟨cmdbuf, firstSpacePos, s.i + 1⟩, true)

/-- The first loop of `gnuplot_version` (lines 122-149) over the output of the
discovery command. -/
def discover : Pipe → Discovery → Discovery
  | [], s => (discover_step (read_stdin none) s).1
  | ev :: fp, s =>
    let next := discover_step (read_stdin (some ev)) s
    if next.2 then discover fp next.1 else next.1

/-- The variables of the second loop of `gnuplot_version`. -/
structure Probe where
  cmdbuf : List Nat
  i : Nat
  ch : Nat
  deriving DecidableEq, Repr

/-- One pass through the body of the second loop (lines 178-185). -/
def probe_step (ch : Nat) (s : Probe) : Probe × Bool :=
  if promote ch = EOF ∨ promote ch = 0 then ({ s with ch := ch }, false)
  else
    (⟨if promote ch ≠ 10 then s.cmdbuf ++ [ch] else s.cmdbuf, s.i + 1, ch⟩, true)

/-- The second loop of `gnuplot_version` (lines 176-186) over the output of the
version probe. -/
def probe_read : Pipe → Probe → Probe
  | [], s => (probe_step (read_stdin none) s).1
  | ev :: fp, s =>
    let next := probe_step (read_stdin (some ev)) s
    if next.2 then probe_read fp next.1 else next.1

/-! ## gnuplot_version -/

/-- The two modes popen is called with. -/
inductive Mode
  | r
  | w
  deriving DecidableEq, Repr

/-- The two pipes `gnuplot_version` reads. -/
inductive Stream
  | discovery
  | probe
  deriving DecidableEq, Repr

/-- The calls `gnuplot_version` makes on the process layer. -/
inductive SysCall
  | popen (cmd : List Nat) (mode : Mode)
  | pclose (fp : Stream)
  deriving DecidableEq, Repr

/-- The operating system as `gnuplot_version` sees it: what popen in read mode
answers for a command (the pipe, `none` for `NULL`, and the value of `errno`
after the call), and what popen in write mode answers. -/
structure Host where
  popen_r : List Nat → Option Pipe × Int
  popen_w : List Nat → Option FILE

/-- What a call of `gnuplot_version` did. -/
structure VersionOutcome where
  result : Ret (List Nat)
  g_fp : Option FILE
  calls : List SysCall
  deriving DecidableEq, Repr

/-- The discovery command. -/
def whereis : List Nat := cstr "whereis -b gnuplot"

/-- The function `gnuplot_version`. The buffer `tmpbuf` is held as the C string in
it: it is zeroed and receives at most `GEN_LEN` bytes of `cmdbuf`. -/
def gnuplot_version (g_fp : Option FILE) (host : Host) : VersionOutcome :=
  match host.popen_r whereis with
  | (none, _) => ⟨.ereport .whereisPopen, g_fp, [.popen whereis .r]⟩
  | (some fp, popen_err) =>
    let d := discover fp ⟨[], -1, 0⟩
    let located : List SysCall := [.popen whereis .r, .pclose .discovery]
    if d.i = 0 ∧ 0 < popen_err then ⟨.ereport .whereisErrno, g_fp, located⟩
    else
      let probe_cmd := c_str d.cmdbuf
      match host.popen_r probe_cmd with
      | (none, _) => ⟨.ereport .probePopen, g_fp, located ++ [.popen probe_cmd .r]⟩
      | (some fp, popen_err) =>
        let tmpbuf := c_str (d.cmdbuf.take GEN_LEN)
        let v := probe_read fp ⟨[], 0, 0⟩
        if promote v.ch = 0 then
          ⟨.ereport .probeTimeout, g_fp, located ++ [.popen probe_cmd .r]⟩
        else
          let probed := located ++ [.popen probe_cmd .r, .pclose .probe]
          if v.i = 0 ∧ 0 < popen_err then ⟨.ereport .probeErrno, g_fp, probed⟩
          else
            match g_fp with
            | some session => ⟨.returned (c_str v.cmdbuf), some session, probed⟩
            | none =>
              let i := strlen tmpbuf
              if i < 3 then ⟨.outOfBounds ((i : Int) - 3), none, probed⟩
              else
                let launch := tmpbuf.take (i - 3)
                match host.popen_w launch with
                | none => ⟨.ereport .launchPopen, none, probed ++ [.popen launch .w]⟩
                | some session =>
                  ⟨.returned (c_str v.cmdbuf), some session, probed ++ [.popen launch .w]⟩

/-- How many of the calls launch the persistent subprocess: popen in write mode. -/
def launches : List SysCall → Nat
  | [] => 0
  | .popen _ .w :: cs => 1 + launches cs
  | _ :: cs => launches cs

/-! ## Sequences of calls -/

/-- A call of one of the two functions, with what its environment answers. -/
inductive Call
  | version (host : Host)
  | plot (db_qry p_cmd : Option (List Nat)) (spi : SPI)

/-- What a call did. -/
inductive Done
  | version (o : VersionOutcome)
  | plot (o : PlotOutcome)

/-- The value of `g_fp` after a call. -/
def Done.g_fp : Done → Option FILE
  | .version o => o.g_fp
  | .plot o => o.g_fp

/-- One call, made with the given value of `g_fp`. -/
def perform (g_fp : Option FILE) : Call → Done
  | .version host => .version (gnuplot_version g_fp host)
  | .plot db_qry p_cmd spi => .plot (pg_plot g_fp db_qry p_cmd spi)

/-- The calls of a backend one after the other, each starting with the `g_fp`
the one before it left. -/
def run (g_fp : Option FILE) : List Call → List Done
  | [] => []
  | c :: cs => perform g_fp c :: run (perform g_fp c).g_fp cs

/-! ## The words of the specification -/

/-- A byte read from a pipe that is neither NUL, a space nor 0xFF. -/
def plain (b : Nat) : Prop := b < 256 ∧ b ≠ 0 ∧ b ≠ 32 ∧ b ≠ 255

instance (b : Nat) : Decidable (plain b) := by unfold plain; infer_instance

/-! ## Sample environments -/

/-- An SPI whose every query selects the two rows `1 2` and `3 4`. -/
def spi_two_rows : SPI :=
  ⟨SPI_OK_CONNECT, fun _ =>
    ⟨SPI_OK_SELECT, some ⟨2, [[some (cstr "1"), some (cstr "2")], [some (cstr "3"), some (cstr "4")]]⟩⟩⟩

/-- An SPI whose every statement is an insert, which leaves no tuple table. -/
def spi_insert : SPI := ⟨SPI_OK_CONNECT, fun _ => ⟨7, none⟩⟩

/-- A discovery output with two paths after the label. -/
def whereis_two_paths : List Nat :=
  cstr "gnuplot: /usr/bin/gnuplot /usr/share/man/man1/gnuplot.1.gz"

/-- A host on which the discovery command prints `out`, every other command read
prints `version`, `errno` is `errno` after every call, and the subprocess is
opened as handle 5. -/
def host_printing (errno : Int) (out version : List Nat) : Host :=
  ⟨fun cmd => if cmd = whereis then (some (out.map PipeEvent.byte), errno)
      else (some (version.map PipeEvent.byte), errno),
    fun _ => some 5⟩

/-- A host on which the discovery command prints two paths and the version probe
prints one character and then nothing more. -/
def host_hanging : Host :=
  ⟨fun cmd => if cmd = whereis then (some (whereis_two_paths.map PipeEvent.byte), 0)
      else (some [PipeEvent.byte 103, PipeEvent.timeout], 0),
    fun _ => some 5⟩

/-! ## Lemmas on the session pipe -/

theorem read_stdin_byte (b : Nat) (h : b < 256) : read_stdin (some (.byte b)) = b := by
  simp only [read_stdin, to_char]
  omega

theorem promote_plain (b : Nat) (h : plain b) :
    promote b ≠ EOF ∧ promote b ≠ 0 ∧ promote b ≠ 32 := by
  obtain ⟨h1, h2, h3, h4⟩ := h
  unfold promote EOF
  split <;> refine ⟨?_, ?_, ?_⟩ <;> omega

theorem promote_eof : promote (read_stdin none) = EOF := by decide

theorem c_str_cons (a : Nat) (l : List Nat) (ha : a ≠ 0) : c_str (a :: l) = a :: c_str l := by
  simp [c_str, List.takeWhile_cons, ha]

theorem c_str_nul (t : List Nat) : c_str (0 :: t) = [] := by
  simp [c_str]

theorem c_str_append_nul (l t : List Nat) (h : ∀ b ∈ l, b ≠ 0) : c_str (l ++ 0 :: t) = l := by
  induction l with
  | nil => exact c_str_nul t
  | cons a l ih =>
    rw [List.cons_append, c_str_cons a _ (h a (by simp)), ih (fun b hb => h b (by simp [hb]))]

theorem c_str_of_no_nul (l : List Nat) (h : ∀ b ∈ l, b ≠ 0) : c_str l = l := by
  induction l with
  | nil => rfl
  | cons a l ih =>
    rw [c_str_cons a _ (h a (by simp)), ih (fun b hb => h b (by simp [hb]))]

theorem discover_cons (ev : PipeEvent) (fp : Pipe) (s : Discovery) :
    discover (ev :: fp) s =
      if (discover_step (read_stdin (some ev)) s).2 then
        discover fp (discover_step (read_stdin (some ev)) s).1
      else (discover_step (read_stdin (some ev)) s).1 := rfl

theorem discover_step_label (b : Nat) (hb : plain b) (s : Discovery)
    (hs : s.firstSpacePos < 0) :
    discover_step (read_stdin (some (.byte b))) s =
      (⟨s.cmdbuf, s.firstSpacePos, s.i + 1⟩, true) := by
  obtain ⟨p1, p2, p3⟩ := promote_plain b hb
  have hneg : ¬ (0 ≤ s.firstSpacePos) := by omega
  simp [discover_step, read_stdin_byte b hb.1, p1, p2, p3, hneg]

theorem discover_step_path (b : Nat) (hb : plain b) (s : Discovery)
    (hs : 0 ≤ s.firstSpacePos) :
    discover_step (read_stdin (some (.byte b))) s =
      (⟨s.cmdbuf ++ [b], s.firstSpacePos, s.i + 1⟩, true) := by
  obtain ⟨p1, p2, p3⟩ := promote_plain b hb
  simp [discover_step, read_stdin_byte b hb.1, p1, p2, p3, hs]

theorem discover_step_first_space (s : Discovery) (hs : s.firstSpacePos < 0) :
    discover_step (read_stdin (some (.byte 32))) s =
      (⟨s.cmdbuf ++ [32], (s.i : Int), s.i + 1⟩, true) := by
  have hneg : ¬ (0 ≤ s.firstSpacePos) := by omega
  have h32 : promote 32 = 32 := by decide
  simp [discover_step, read_stdin_byte 32 (by omega), h32, EOF, hs, hneg]

theorem discover_step_second_space (s : Discovery) (hs : 0 ≤ s.firstSpacePos) :
    discover_step (read_stdin (some (.byte 32))) s =
      (⟨s.cmdbuf ++ cstr " -V" ++ [0], s.firstSpacePos, s.i⟩, false) := by
  have h32 : promote 32 = 32 := by decide
  simp [discover_step, read_stdin_byte 32 (by omega), h32, EOF, hs]

theorem discover_label (label : List Nat) (hl : ∀ b ∈ label, plain b) (tail : Pipe)
    (s : Discovery) (hs : s.firstSpacePos < 0) :
    discover (label.map PipeEvent.byte ++ tail) s =
      discover tail ⟨s.cmdbuf, s.firstSpacePos, s.i + label.length⟩ := by
  induction label generalizing s with
  | nil => simp
  | cons b label ih =>
    rw [List.map_cons, List.cons_append, discover_cons,
      discover_step_label b (hl b (by simp)) s hs]
    simp only [if_true]
    rw [ih (fun x hx => hl x (by simp [hx])) ⟨s.cmdbuf, s.firstSpacePos, s.i + 1⟩ hs]
    simp [Nat.add_assoc, Nat.add_comm 1]

theorem discover_path (path : List Nat) (hp : ∀ b ∈ path, plain b) (tail : Pipe)
    (s : Discovery) (hs : 0 ≤ s.firstSpacePos) :
    discover (path.map PipeEvent.byte ++ tail) s =
      discover tail ⟨s.cmdbuf ++ path, s.firstSpacePos, s.i + path.length⟩ := by
  induction path generalizing s with
  | nil => simp
  | cons b path ih =>
    rw [List.map_cons, List.cons_append, discover_cons,
      discover_step_path b (hp b (by simp)) s hs]
    simp only [if_true]
    rw [ih (fun x hx => hp x (by simp [hx])) ⟨s.cmdbuf ++ [b], s.firstSpacePos, s.i + 1⟩ hs]
    simp [Nat.add_assoc, Nat.add_comm 1]

theorem discover_first_space (tail : Pipe) (s : Discovery) (hs : s.firstSpacePos < 0) :
    discover (PipeEvent.byte 32 :: tail) s =
      discover tail ⟨s.cmdbuf ++ [32], (s.i : Int), s.i + 1⟩ := by
  rw [discover_cons, discover_step_first_space s hs]
  simp

theorem discover_second_space (tail : Pipe) (s : Discovery) (hs : 0 ≤ s.firstSpacePos) :
    discover (PipeEvent.byte 32 :: tail) s =
      ⟨s.cmdbuf ++ cstr " -V" ++ [0], s.firstSpacePos, s.i⟩ := by
  rw [discover_cons, discover_step_second_space s hs]
  simp

/-- On a discovery output `label path rest`, the parts separated by single spaces,
the first loop leaves in `cmdbuf` the space before the path, the path, the flag
and a NUL. -/
theorem discover_two_spaces (label path rest : List Nat) (hl : ∀ b ∈ label, plain b)
    (hp : ∀ b ∈ path, plain b) :
    discover ((label ++ 32 :: (path ++ 32 :: rest)).map PipeEvent.byte) ⟨[], -1, 0⟩ =
      ⟨32 :: path ++ cstr " -V" ++ [0], (label.length : Int), label.length + 1 + path.length⟩ := by
  rw [List.map_append, discover_label label hl _ _ (by simp), List.map_cons,
    discover_first_space _ _ (by simp), List.map_append,
    discover_path path hp _ _ (by simp), List.map_cons, discover_second_space _ _ (by simp)]
  simp

theorem probe_read_cons (ev : PipeEvent) (fp : Pipe) (s : Probe) :
    probe_read (ev :: fp) s =
      if (probe_step (read_stdin (some ev)) s).2 then
        probe_read fp (probe_step (read_stdin (some ev)) s).1
      else (probe_step (read_stdin (some ev)) s).1 := rfl

/-- The second loop ends with `ch == 0` when the first call of `read_stdin` that
answers 0 or `EOF` answers 0. -/
theorem probe_read_timeout (pre : Pipe) (ev : PipeEvent) (rest : Pipe) (s : Probe)
    (hpre : ∀ x ∈ pre, promote (read_stdin (some x)) ≠ EOF ∧ promote (read_stdin (some x)) ≠ 0)
    (hev : read_stdin (some ev) = 0) :
    (probe_read (pre ++ ev :: rest) s).ch = 0 := by
  induction pre generalizing s with
  | nil =>
    have h0 : promote 0 = 0 := by decide
    rw [List.nil_append, probe_read_cons, hev]
    simp [probe_step, h0]
  | cons x pre ih =>
    obtain ⟨h1, h2⟩ := hpre x (by simp)
    rw [List.cons_append, probe_read_cons]
    simp only [probe_step, h1, h2, or_self, if_false, if_true]
    exact ih _ (fun y hy => hpre y (by simp [hy]))

/-! ## Lemmas on the session handle -/

theorem pg_plot_no_session (db_qry p_cmd : Option (List Nat)) (spi : SPI) :
    pg_plot none db_qry p_cmd spi = ⟨.ereport .noSession, none, [], none⟩ := rfl

theorem gnuplot_version_keeps_session (session : FILE) (host : Host) :
    (gnuplot_version (some session) host).g_fp = some session ∧
      launches (gnuplot_version (some session) host).calls = 0 ∧
      ∀ cmd, SysCall.popen cmd Mode.w ∉ (gnuplot_version (some session) host).calls := by
  unfold gnuplot_version
  rcases host.popen_r whereis with ⟨_ | fp, e⟩
  · simp [launches]
  · dsimp only
    by_cases h1 : (discover fp ⟨[], -1, 0⟩).i = 0 ∧ 0 < e
    · simp [h1, launches]
    · simp only [h1, if_false]
      generalize host.popen_r _ = r
      rcases r with ⟨_ | fp2, e2⟩
      · simp [launches]
      · dsimp only
        by_cases h2 : promote (probe_read fp2 ⟨[], 0, 0⟩).ch = 0
        · simp [h2, launches]
        · by_cases h3 : (probe_read fp2 ⟨[], 0, 0⟩).i = 0 ∧ 0 < e2
          · simp [h2, h3, launches]
          · simp [h2, h3, launches]

theorem gnuplot_version_creates_session (host : Host) :
    ((gnuplot_version none host).g_fp = none ∧
        ∀ v, (gnuplot_version none host).result ≠ Ret.returned v) ∨
      ((gnuplot_version none host).g_fp ≠ none ∧
        ∃ v, (gnuplot_version none host).result = Ret.returned v) := by
  unfold gnuplot_version
  rcases host.popen_r whereis with ⟨_ | fp, e⟩
  · simp
  · dsimp only
    by_cases h1 : (discover fp ⟨[], -1, 0⟩).i = 0 ∧ 0 < e
    · simp [h1]
    · simp only [h1, if_false]
      generalize host.popen_r _ = r
      rcases r with ⟨_ | fp2, e2⟩
      · simp
      · dsimp only
        by_cases h2 : promote (probe_read fp2 ⟨[], 0, 0⟩).ch = 0
        · simp [h2]
        · by_cases h3 : (probe_read fp2 ⟨[], 0, 0⟩).i = 0 ∧ 0 < e2
          · simp [h2, h3]
          · simp only [h2, h3, if_false]
            split_ifs
            · simp
            · generalize host.popen_w _ = l
              cases l <;> simp

theorem gnuplot_version_launches_le (host : Host) :
    launches (gnuplot_version none host).calls ≤ 1 := by
  unfold gnuplot_version
  rcases host.popen_r whereis with ⟨_ | fp, e⟩
  · simp [launches]
  · dsimp only
    by_cases h1 : (discover fp ⟨[], -1, 0⟩).i = 0 ∧ 0 < e
    · simp [h1, launches]
    · simp only [h1, if_false]
      generalize host.popen_r _ = r
      rcases r with ⟨_ | fp2, e2⟩
      · simp [launches]
      · dsimp only
        by_cases h2 : promote (probe_read fp2 ⟨[], 0, 0⟩).ch = 0
        · simp [h2, launches]
        · by_cases h3 : (probe_read fp2 ⟨[], 0, 0⟩).i = 0 ∧ 0 < e2
          · simp [h2, h3, launches]
          · simp only [h2, h3, if_false]
            split_ifs
            · simp [launches]
            · generalize host.popen_w _ = l
              cases l <;> simp [launches]

theorem run_without_session (calls : List Call)
    (h : ∀ d ∈ run none calls, ∀ o, d = Done.version o → ∃ e, o.result = Ret.ereport e) :
    ∀ d ∈ run none calls, ∀ o, d = Done.plot o → o = ⟨.ereport .noSession, none, [], none⟩ := by
  induction calls with
  | nil => simp [run]
  | cons c cs ih =>
    cases c with
    | version host =>
      have hfail := h (Done.version (gnuplot_version none host)) (by simp [run, perform]) _ rfl
      have hnone : (gnuplot_version none host).g_fp = none := by
        rcases gnuplot_version_creates_session host with hc | hc
        · exact hc.1
        · obtain ⟨v, hv⟩ := hc.2
          obtain ⟨e, he⟩ := hfail
          rw [hv] at he
          cases he
      simp only [run, perform, Done.g_fp, hnone] at h ⊢
      intro d hd o ho
      rcases List.mem_cons.mp hd with hd | hd
      · rw [hd] at ho; cases ho
      · exact ih (fun d hd => h d (List.mem_cons_of_mem _ hd)) d hd o ho
    | plot db_qry p_cmd spi =>
      simp only [run, perform, Done.g_fp, pg_plot_no_session] at h ⊢
      intro d hd o ho
      rcases List.mem_cons.mp hd with hd | hd
      · rw [hd] at ho; cases ho; rfl
      · exact ih (fun d hd => h d (List.mem_cons_of_mem _ hd)) d hd o ho

/-! ## What the discovery loop hands to popen -/

theorem probe_command_no_nul (path : List Nat) (hp : ∀ b ∈ path, plain b) :
    ∀ b ∈ 32 :: path ++ cstr " -V", b ≠ 0 := by
  intro b hb
  simp only [List.cons_append, List.mem_cons, List.mem_append] at hb
  rcases hb with hb | hb | hb
  · omega
  · exact (hp b hb).2.1
  · have : ∀ x ∈ cstr " -V", x ≠ 0 := by decide
    exact this b hb

theorem tmpbuf_two_spaces (path : List Nat) (hp : ∀ b ∈ path, plain b)
    (hlen : path.length + 4 ≤ GEN_LEN) :
    c_str ((32 :: path ++ cstr " -V" ++ [0]).take GEN_LEN) = 32 :: path ++ cstr " -V" := by
  have hl : (32 :: path ++ cstr " -V").length ≤ GEN_LEN := by
    have : (cstr " -V").length = 3 := by decide
    simp only [List.cons_append, List.length_cons, List.length_append, this]
    omega
  rw [List.take_append_eq_append_take, List.take_of_length_le hl]
  cases GEN_LEN - (32 :: path ++ cstr " -V").length with
  | zero =>
    rw [List.take_zero, List.append_nil]
    exact c_str_of_no_nul _ (probe_command_no_nul path hp)
  | succ k =>
    rw [List.take_succ_cons, List.take_nil]
    exact c_str_append_nul _ [] (probe_command_no_nul path hp)

/-- On a discovery output `label path rest`, the parts separated by single spaces
and without NUL, space or 0xFF in the label and the path, the command of the
version probe is a space, the path and the flag; and for a path that fits
`tmpbuf` the only command the subprocess is opened with is a space and the
path. -/
theorem gnuplot_version_commands (g_fp : Option FILE) (host : Host)
    (label path rest : List Nat) (e : Int)
    (hl : ∀ b ∈ label, plain b) (hp : ∀ b ∈ path, plain b)
    (hlen : path.length + 4 ≤ GEN_LEN)
    (hw : host.popen_r whereis =
      (some ((label ++ 32 :: (path ++ 32 :: rest)).map PipeEvent.byte), e)) :
    (gnuplot_version g_fp host).calls.take 3 =
      [.popen whereis .r, .pclose .discovery, .popen (32 :: path ++ cstr " -V") .r] ∧
    ∀ cmd, SysCall.popen cmd Mode.w ∈ (gnuplot_version g_fp host).calls → cmd = 32 :: path := by
  have hi : ¬ (label.length + 1 + path.length = 0 ∧ 0 < e) := by omega
  have hc : c_str (32 :: path ++ cstr " -V" ++ [0]) = 32 :: path ++ cstr " -V" :=
    c_str_append_nul _ [] (probe_command_no_nul path hp)
  have ht := tmpbuf_two_spaces path hp hlen
  have h3 : (cstr " -V").length = 3 := by decide
  have hs : ¬ strlen (32 :: path ++ cstr " -V") < 3 := by
    simp only [strlen, List.cons_append, List.length_cons, List.length_append, h3]
    omega
  have hk : (32 :: path ++ cstr " -V").take (strlen (32 :: path ++ cstr " -V") - 3) =
      32 :: path := by
    have : strlen (32 :: path ++ cstr " -V") - 3 = (32 :: path).length := by
      simp only [strlen, List.cons_append, List.length_cons, List.length_append, h3]
      omega
    rw [this, List.take_left]
  unfold gnuplot_version
  rw [hw]
  simp only [discover_two_spaces label path rest hl hp, hi, if_false, hc, ht, hs, hk]
  generalize host.popen_r _ = r
  rcases r with ⟨_ | fp2, e2⟩
  · simp
  · dsimp only
    by_cases h2 : promote (probe_read fp2 ⟨[], 0, 0⟩).ch = 0
    · simp [h2]
    · by_cases h4 : (probe_read fp2 ⟨[], 0, 0⟩).i = 0 ∧ 0 < e2
      · simp [h2, h4]
      · simp only [h2, h4, if_false]
        cases g_fp with
        | some session => simp
        | none =>
          dsimp only
          generalize host.popen_w _ = l
          cases l <;> simp

/-- The commands at the discovery output `gnuplot: /usr/bin/gnuplot /usr/share/...`. -/
theorem gnuplot_version_commands_witness :
    (gnuplot_version none
      (host_printing 0 whereis_two_paths (cstr "gnuplot 4.6 patchlevel 2\n"))).calls.take 3 =
      [.popen whereis .r, .pclose .discovery, .popen (cstr " /usr/bin/gnuplot -V") .r] :=
  (gnuplot_version_commands none
    (host_printing 0 whereis_two_paths (cstr "gnuplot 4.6 patchlevel 2\n"))
    (cstr "gnuplot:") (cstr "/usr/bin/gnuplot") (cstr "/usr/share/man/man1/gnuplot.1.gz") 0
    (by decide) (by decide) (by decide) rfl).1

/-! ## The claims -/

/-- C3, as the code has it: a plot command shorter than 4 characters makes `pg_plot`
fail without a write and without a change of the session, for every query; the
error is `the plot command is invalid` when there is a session, and the one of
the missing session when there is none. -/
theorem pg_plot_short_command (g_fp : Option FILE) (db_qry : Option (List Nat))
    (p_cmd : List Nat) (spi : SPI) (hcmd : strlen (text_to_cstring p_cmd) < 4) :
    (pg_plot g_fp db_qry (some p_cmd) spi).writes = [] ∧
    (pg_plot g_fp db_qry (some p_cmd) spi).g_fp = g_fp ∧
    (pg_plot g_fp db_qry (some p_cmd) spi).pclosed = none ∧
    (g_fp ≠ none → (pg_plot g_fp db_qry (some p_cmd) spi).result = .ereport .invalidCommand) ∧
    (g_fp = none → (pg_plot g_fp db_qry (some p_cmd) spi).result = .ereport .noSession) ∧
    errmsg .invalidCommand = "PG_GNUPLOT : the plot command is invalid" := by
  cases g_fp with
  | none => simp [pg_plot, errmsg]
  | some fp => simp [pg_plot, hcmd, errmsg]

/-- C3 at the command `abc` with a session. -/
theorem pg_plot_short_command_witness :
    strlen (text_to_cstring (cstr "abc")) < 4 ∧
    (pg_plot (some 3) (some (cstr "select 1")) (some (cstr "abc")) spi_two_rows).result =
      .ereport .invalidCommand ∧
    (pg_plot (some 3) (some (cstr "select 1")) (some (cstr "abc")) spi_two_rows).writes = [] :=
  ⟨by decide,
    (pg_plot_short_command (some 3) (some (cstr "select 1")) (cstr "abc") spi_two_rows
      (by decide)).2.2.2.1 (by simp),
    (pg_plot_short_command (some 3) (some (cstr "select 1")) (cstr "abc") spi_two_rows
      (by decide)).1⟩

/-- C3 as stated fails: without a session the command `abc` is refused with the
error of the missing session, not with that of the invalid command. -/
theorem pg_plot_short_command_without_session :
    strlen (text_to_cstring (cstr "abc")) < 4 ∧
    (pg_plot none (some (cstr "select 1")) (some (cstr "abc")) spi_two_rows).result =
      .ereport .noSession ∧
    (pg_plot none (some (cstr "select 1")) (some (cstr "abc")) spi_two_rows).result ≠
      .ereport .invalidCommand := by
  decide

/-- C4: with a session, a plot command of at least 4 characters and a non-empty
query that the SPI runs with a code other than `SPI_OK_SELECT` or without a
tuple table, `pg_plot` writes the plot command line, then the one line `e`, and
nothing else, no row line among it, and fails with `invalid query results`;
the session stays. -/
theorem pg_plot_unblocks_on_bad_query (fp : FILE) (db_qry p_cmd : List Nat) (spi : SPI)
    (hcmd : 4 ≤ strlen (text_to_cstring p_cmd))
    (hqry : 1 ≤ strlen (text_to_cstring db_qry))
    (hconn : spi.connect = SPI_OK_CONNECT)
    (hbad : (spi.execute (text_to_cstring db_qry)).ret ≠ SPI_OK_SELECT ∨
      (spi.execute (text_to_cstring db_qry)).tuptable = none) :
    pg_plot (some fp) (some db_qry) (some p_cmd) spi =
      ⟨.ereport .invalidResults, some fp,
        [⟨Site.plotCmd, text_to_cstring p_cmd ++ cstr "\n"⟩, ⟨Site.queryUnblock, endOfBlock⟩],
        none⟩ ∧
    bytes (pg_plot (some fp) (some db_qry) (some p_cmd) spi).writes =
      text_to_cstring p_cmd ++ cstr "\n" ++ cstr "e\n" ∧
    countSite Site.rowEnd (pg_plot (some fp) (some db_qry) (some p_cmd) spi).writes = 0 := by
  have h1 : ¬ strlen (text_to_cstring p_cmd) < 4 := by omega
  have h2 : ¬ strlen (text_to_cstring db_qry) < 1 := by omega
  have key : pg_plot (some fp) (some db_qry) (some p_cmd) spi =
      ⟨.ereport .invalidResults, some fp,
        [⟨Site.plotCmd, text_to_cstring p_cmd ++ cstr "\n"⟩, ⟨Site.queryUnblock, endOfBlock⟩],
        none⟩ := by
    cases htab : (spi.execute (text_to_cstring db_qry)).tuptable with
    | none => simp [pg_plot, h1, h2, hconn, htab]
    | some tt =>
      have hret : (spi.execute (text_to_cstring db_qry)).ret ≠ SPI_OK_SELECT := by
        rcases hbad with h | h
        · exact h
        · rw [htab] at h; cases h
      simp [pg_plot, h1, h2, hconn, htab, hret]
  rw [key]
  refine ⟨rfl, ?_, ?_⟩
  · simp [bytes, endOfBlock]
  · simp [countSite]

/-- C4 at an insert statement, which the SPI runs without a tuple table. -/
theorem pg_plot_unblocks_on_bad_query_witness :
    4 ≤ strlen (text_to_cstring (cstr "plot '-'")) ∧
    1 ≤ strlen (text_to_cstring (cstr "insert into t values (1)")) ∧
    bytes (pg_plot (some 3) (some (cstr "insert into t values (1)")) (some (cstr "plot '-'"))
      spi_insert).writes = cstr "plot '-'\ne\n" ∧
    (pg_plot (some 3) (some (cstr "insert into t values (1)")) (some (cstr "plot '-'"))
      spi_insert).result = .ereport .invalidResults := by
  have h := pg_plot_unblocks_on_bad_query 3 (cstr "insert into t values (1)") (cstr "plot '-'")
    spi_insert (by decide) (by decide) rfl (Or.inr rfl)
  refine ⟨by decide, by decide, ?_, ?_⟩
  · rw [h.2.1]; decide
  · rw [h.1]

/-- C5: with a session, `pg_plot` with an empty query and the command `quit` writes
the line `quit`, closes the handle, sets `g_fp` to `NULL` and returns 1; and from
then on, in every sequence of calls in which each `gnuplot_version` fails, every
`pg_plot`, whatever its query and command, fails with the error of the missing
session and writes nothing. -/
theorem pg_plot_quit_ends_session (fp : FILE) (spi : SPI) :
    pg_plot (some fp) (some []) (some (cstr "quit")) spi =
      ⟨.returned 1, none, [⟨Site.plotCmd, cstr "quit\n"⟩], some fp⟩ ∧
    ∀ calls : List Call,
      (∀ d ∈ run (pg_plot (some fp) (some []) (some (cstr "quit")) spi).g_fp calls,
        ∀ o, d = Done.version o → ∃ e, o.result = Ret.ereport e) →
      ∀ d ∈ run (pg_plot (some fp) (some []) (some (cstr "quit")) spi).g_fp calls,
        ∀ o, d = Done.plot o → o = ⟨.ereport .noSession, none, [], none⟩ := by
  have key : pg_plot (some fp) (some []) (some (cstr "quit")) spi =
      ⟨.returned 1, none, [⟨Site.plotCmd, cstr "quit\n"⟩], some fp⟩ := by
    have hq : text_to_cstring (cstr "quit") = cstr "quit" := by decide
    have hl : 4 ≤ (cstr "quit").length := by decide
    have hn : cstr "quit" ++ cstr "\n" = cstr "quit\n" := by decide
    have he : text_to_cstring [] = [] := rfl
    simp [pg_plot, hq, hl, hn, he, strlen]
  rw [key]
  exact ⟨rfl, run_without_session⟩

/-- C5 at a sequence of three calls after the `quit`: a plot, a `gnuplot_version`
whose discovery command cannot be started, and another plot. -/
theorem pg_plot_quit_ends_session_witness :
    (pg_plot (some 3) (some []) (some (cstr "quit")) spi_two_rows).g_fp = none ∧
    ∀ d ∈ run (pg_plot (some 3) (some []) (some (cstr "quit")) spi_two_rows).g_fp
        [Call.plot (some (cstr "select a, b from t")) (some (cstr "plot '-'")) spi_two_rows,
          Call.version ⟨fun _ => (none, 2), fun _ => none⟩,
          Call.plot (some []) (some (cstr "replot")) spi_two_rows],
      ∀ o, d = Done.plot o → o = ⟨.ereport .noSession, none, [], none⟩ := by
  have hg : (pg_plot (some 3) (some []) (some (cstr "quit")) spi_two_rows).g_fp = none := by
    rw [(pg_plot_quit_ends_session 3 spi_two_rows).1]
  refine ⟨hg, (pg_plot_quit_ends_session 3 spi_two_rows).2 _ ?_⟩
  intro d hd o ho
  rw [hg] at hd
  simp only [run, perform, pg_plot_no_session, Done.g_fp, List.mem_cons, List.mem_singleton,
    List.not_mem_nil, or_false] at hd
  rcases hd with hd | hd | hd
  · rw [hd] at ho; cases ho
  · rw [hd] at ho
    cases ho
    simp [gnuplot_version]
  · rw [hd] at ho; cases ho

/-- C6 on the code: at the discovery output
`gnuplot: /usr/bin/gnuplot /usr/share/man/man1/gnuplot.1.gz` the version probe is
run as ` /usr/bin/gnuplot -V` and the subprocess opened as ` /usr/bin/gnuplot`,
each with the space that ended the label in front, not as `/usr/bin/gnuplot -V`
and `/usr/bin/gnuplot`. -/
theorem gnuplot_version_leading_space :
    gnuplot_version none
        (host_printing 0 whereis_two_paths (cstr "gnuplot 4.6 patchlevel 2\n")) =
      ⟨.returned (cstr "gnuplot 4.6 patchlevel 2"), some 5,
        [.popen whereis .r, .pclose .discovery, .popen (cstr " /usr/bin/gnuplot -V") .r,
          .pclose .probe, .popen (cstr " /usr/bin/gnuplot") .w]⟩ ∧
    cstr " /usr/bin/gnuplot -V" ≠ cstr "/usr/bin/gnuplot" ++ cstr " -V" ∧
    cstr " /usr/bin/gnuplot" ≠ cstr "/usr/bin/gnuplot" := by
  decide

/-- C7 on the code: at the discovery output `gnuplot: /usr/bin/gnuplot` and a
newline, with no second space, and a probe that prints nothing, the creation of
the session is reached with a probe command that does not end in the flag, and
the subprocess is opened as ` /usr/bin/gnupl`, three characters of the path cut
off; at the output `gnuplot:` and a newline the probe command is empty and the
store `tmpbuf[i - 3]` is made at index -3. -/
theorem gnuplot_version_cuts_without_flag :
    gnuplot_version none (host_printing 0 (cstr "gnuplot: /usr/bin/gnuplot\n") []) =
      ⟨.returned [], some 5,
        [.popen whereis .r, .pclose .discovery, .popen (cstr " /usr/bin/gnuplot\n") .r,
          .pclose .probe, .popen (cstr " /usr/bin/gnupl") .w]⟩ ∧
    gnuplot_version none (host_printing 0 (cstr "gnuplot:\n") []) =
      ⟨.outOfBounds (-3), none,
        [.popen whereis .r, .pclose .discovery, .popen [] .r, .pclose .probe]⟩ := by
  decide

/-- C8: when the read of the version probe is reached and the first call of
`read_stdin` on it that answers 0 or `EOF` answers 0 (a timeout, a failed
`select`), `gnuplot_version` fails with the detail `timed out waiting for version
string`, whatever `g_fp` is; it leaves `g_fp` as it was, does not close the pipe
of the probe and does not open the subprocess. -/
theorem gnuplot_version_probe_timeout (g_fp : Option FILE) (host : Host) (out : Pipe)
    (e1 e2 : Int) (pre : Pipe) (ev : PipeEvent) (rest : Pipe)
    (hw : host.popen_r whereis = (some out, e1))
    (hi : ¬ ((discover out ⟨[], -1, 0⟩).i = 0 ∧ 0 < e1))
    (hp : host.popen_r (c_str (discover out ⟨[], -1, 0⟩).cmdbuf) = (some (pre ++ ev :: rest), e2))
    (hpre : ∀ x ∈ pre, promote (read_stdin (some x)) ≠ EOF ∧ promote (read_stdin (some x)) ≠ 0)
    (hev : read_stdin (some ev) = 0) :
    gnuplot_version g_fp host =
      ⟨.ereport .probeTimeout, g_fp,
        [.popen whereis .r, .pclose .discovery,
          .popen (c_str (discover out ⟨[], -1, 0⟩).cmdbuf) .r]⟩ ∧
    errdetail .probeTimeout = some "timed out waiting for version string" ∧
    SysCall.pclose Stream.probe ∉ (gnuplot_version g_fp host).calls ∧
    launches (gnuplot_version g_fp host).calls = 0 := by
  have hch := probe_read_timeout pre ev rest ⟨[], 0, 0⟩ hpre hev
  have h0 : promote 0 = 0 := by decide
  have key : gnuplot_version g_fp host =
      ⟨.ereport .probeTimeout, g_fp,
        [.popen whereis .r, .pclose .discovery,
          .popen (c_str (discover out ⟨[], -1, 0⟩).cmdbuf) .r]⟩ := by
    unfold gnuplot_version
    rw [hw]
    simp only [hi, if_false, hp, hch, h0, if_true]
    rfl
  rw [key]
  refine ⟨rfl, rfl, by simp, by simp [launches]⟩

/-- C8 at a probe that prints one character and then stays silent, without a
session and with one. -/
theorem gnuplot_version_probe_timeout_witness :
    gnuplot_version none host_hanging =
      ⟨.ereport .probeTimeout, none,
        [.popen whereis .r, .pclose .discovery, .popen (cstr " /usr/bin/gnuplot -V") .r]⟩ ∧
    (gnuplot_version (some 9) host_hanging).g_fp = some 9 := by
  have hc : c_str (discover (whereis_two_paths.map PipeEvent.byte) ⟨[], -1, 0⟩).cmdbuf =
      cstr " /usr/bin/gnuplot -V" := by decide
  have h1 := gnuplot_version_probe_timeout none host_hanging
    (whereis_two_paths.map PipeEvent.byte) 0 0 [PipeEvent.byte 103] PipeEvent.timeout []
    rfl (by decide) (by rw [hc]; rfl) (by decide) rfl
  have h2 := gnuplot_version_probe_timeout (some 9) host_hanging
    (whereis_two_paths.map PipeEvent.byte) 0 0 [PipeEvent.byte 103] PipeEvent.timeout []
    rfl (by decide) (by rw [hc]; rfl) (by decide) rfl
  rw [hc] at h1
  exact ⟨h1.1, by rw [h2.1]⟩

/-- C9: when a call of `gnuplot_version` returns, there is a session after it, and
the next call, whatever it meets, opens nothing and leaves that same session:
the two calls together open the subprocess at most once. A call that finds a
session opens nothing and leaves it as it is. -/
theorem gnuplot_version_launches_once (g_fp : Option FILE) (first second : Host) (v : List Nat)
    (h : (gnuplot_version g_fp first).result = .returned v) :
    ∃ session,
      (gnuplot_version g_fp first).g_fp = some session ∧
      (gnuplot_version (gnuplot_version g_fp first).g_fp second).g_fp = some session ∧
      launches (gnuplot_version (gnuplot_version g_fp first).g_fp second).calls = 0 ∧
      launches ((gnuplot_version g_fp first).calls ++
        (gnuplot_version (gnuplot_version g_fp first).g_fp second).calls) ≤ 1 ∧
      (∀ before, g_fp = some before →
        session = before ∧ launches (gnuplot_version g_fp first).calls = 0) := by
  have happ : ∀ a b : List SysCall, launches (a ++ b) = launches a + launches b := by
    intro a b
    induction a with
    | nil => simp [launches]
    | cons c cs ih =>
      cases c with
      | popen cmd mode => cases mode <;> simp [launches, ih, Nat.add_assoc]
      | pclose fp => simp [launches, ih]
  cases g_fp with
  | some before =>
    obtain ⟨k1, k2, _⟩ := gnuplot_version_keeps_session before first
    obtain ⟨k3, k4, _⟩ := gnuplot_version_keeps_session before second
    refine ⟨before, k1, ?_, ?_, ?_, ?_⟩
    · rw [k1]; exact k3
    · rw [k1]; exact k4
    · rw [happ, k1, k2, k4]; omega
    · intro b hb
      cases hb
      exact ⟨rfl, k2⟩
  | none =>
    rcases gnuplot_version_creates_session first with hc | hc
    · exact absurd h (hc.2 v)
    · obtain ⟨session, hs⟩ := Option.ne_none_iff_exists'.mp hc.1
      obtain ⟨k3, k4, _⟩ := gnuplot_version_keeps_session session second
      refine ⟨session, hs, ?_, ?_, ?_, ?_⟩
      · rw [hs]; exact k3
      · rw [hs]; exact k4
      · rw [happ, hs, k4]
        have := gnuplot_version_launches_le first
        omega
      · intro b hb
        cases hb

/-- C9 at two calls on a host that has gnuplot, the first made without a session:
the first opens handle 5 and the second keeps it. -/
theorem gnuplot_version_launches_once_witness :
    (gnuplot_version none
      (host_printing 0 whereis_two_paths (cstr "gnuplot 4.6 patchlevel 2\n"))).result =
        .returned (cstr "gnuplot 4.6 patchlevel 2") ∧
    ∃ session,
      (gnuplot_version none
        (host_printing 0 whereis_two_paths (cstr "gnuplot 4.6 patchlevel 2\n"))).g_fp =
          some session ∧
      (gnuplot_version (gnuplot_version none
        (host_printing 0 whereis_two_paths (cstr "gnuplot 4.6 patchlevel 2\n"))).g_fp
        (host_printing 0 whereis_two_paths (cstr "gnuplot 4.6 patchlevel 2\n"))).g_fp =
          some session :=
  ⟨by decide,
    (gnuplot_version_launches_once none
      (host_printing 0 whereis_two_paths (cstr "gnuplot 4.6 patchlevel 2\n"))
      (host_printing 0 whereis_two_paths (cstr "gnuplot 4.6 patchlevel 2\n"))
      (cstr "gnuplot 4.6 patchlevel 2") (by decide)).imp (fun _ h => ⟨h.1, h.2.1⟩)⟩

/-- C10 on the code: at the discovery output `gnuplot:` and a newline, where the
locator found nothing, `gnuplot_version` raises no error of the discovery: it
runs the empty command as the version probe, and with a session it returns an
empty version string; without one and with `errno` set it fails with the error
of the probe command. -/
theorem gnuplot_version_nothing_found :
    gnuplot_version (some 9) (host_printing 0 (cstr "gnuplot:\n") []) =
      ⟨.returned [], some 9,
        [.popen whereis .r, .pclose .discovery, .popen [] .r, .pclose .probe]⟩ ∧
    gnuplot_version none (host_printing 2 (cstr "gnuplot:\n") []) =
      ⟨.ereport .probeErrno, none,
        [.popen whereis .r, .pclose .discovery, .popen [] .r, .pclose .probe]⟩ ∧
    gnuplot_version (some 9) (host_printing 0 [] []) =
      ⟨.returned [], some 9,
        [.popen whereis .r, .pclose .discovery, .popen [] .r, .pclose .probe]⟩ := by
  decide

end PgGnuplot
